import Mathlib

/-!
Verification of `litmus/cmds/cmd_run.py` (the `litmus run` command handler).

The handler, `main(args)`:
  1. calls `sdb_exist()` (prerequisite probe for the external `sdb` tool);
  2. loads the project list with `load_project_list(args.projects)`;
  3. resolves the first record whose `'name'` equals `args.project` via
     `next((prj for prj in prj_list if prj['name'] == args.project), None)`;
  4. raises `Exception('Project {} does not exists'.format(args.project))`
     when the result is falsy;
  5. appends `project['path']` to `sys.path`;
  6. does `import userscript` and calls
     `userscript.main(project_name=.., project_path=.., param=..,
     workingdir=.., topology=..)`.

Python exceptions are embedded as an `Except PyError` result; `sys.path`
is threaded explicitly; the executed steps are recorded in an event trace
so that ordering and frame properties can be stated.
-/

namespace CmdRun

/-- Python exceptions that can arise in `cmd_run.main`, by the exception the
interpreter raises at each site. -/
inductive PyError where
  /-- `KeyError` from a dict subscript `d[k]` when key `k` is absent. -/
  | keyError (k : String)
  /-- A plain `Exception(msg)` raised with `raise` (line 27 raises
  `Exception('Project {} does not exists'.format(args.project))`). -/
  | exception (msg : String)
  /-- `ModuleNotFoundError` from `import userscript` when the module is not
  discoverable on `sys.path`. The spec calls this class `PluginLoadError`. -/
  | moduleNotFoundError (modName : String)
  /-- `AttributeError` from `userscript.main` when the loaded module has no
  attribute `main`. The spec calls this class `PluginContractError`. -/
  | attributeError (attr : String)
  /-- `TypeError` from calling `userscript.main(...)` when the attribute
  exists but is not callable. Also a `PluginContractError` in the spec. -/
  | typeErrorNotCallable
  /-- Failure of the `sdb_exist()` prerequisite probe
  (`PrerequisiteMissing` in the spec taxonomy). -/
  | prerequisiteMissing
  deriving DecidableEq, Repr

/-- The spec's `ProjectNotFound` error carrying the requested name: the
exact exception line 27 raises,
`Exception('Project {} does not exists'.format(name))`. -/
def projectNotFound (name : String) : PyError :=
  .exception ("Project " ++ name ++ " does not exists")

/-- A Python dict with string keys and string values, as an association
list; lookup returns the first binding for a key. Project records
(`{'name': .., 'path': ..}`) are such dicts. -/
abbrev PyDict := List (String × String)

/-- Python dict subscript `d[k]`: the value bound to `k`, or a `KeyError`
naming `k` when the key is absent. -/
def dictGet (d : PyDict) (k : String) : Except PyError String :=
  match d.lookup k with
  | some v => .ok v
  | none => .error (.keyError k)

/-- Python truthiness of the `next(..., None)` result: `None` is falsy and
an empty dict is falsy; any non-empty dict is truthy. -/
def pyTruthy : Option PyDict → Bool
  | none => false
  | some d => !d.isEmpty

/-- The parsed CLI arguments consumed by `main(args)`: `args.projects`,
`args.project`, `args.param`, `args.workingdir`, `args.topology`. -/
structure Args where
  projects : String
  project : String
  param : String
  workingdir : String
  topology : String

/-- The ambient process environment `main(args)` runs against: whether the
`sdb` tool is present, the project list the loader returns, whether a
`userscript` module is discoverable once the project path is on the search
path, whether that module exposes a `main` attribute, whether that
attribute is callable, and the behavior of the script's `main` entry point
on the keyword arguments `(project_name, project_path, param, workingdir,
topology)`. -/
structure Env where
  sdbPresent : Bool
  projList : List PyDict
  userscriptImportable : Bool
  userscriptHasMain : Bool
  userscriptMainCallable : Bool
  userscriptMain : String → String → String → String → String → Except PyError Unit

/-- Modelled from the spec: `sdb_exist` (imported from `litmus.cmds`, whose
source is not in the repository fragment) is the prerequisite probe
confirming the required external `sdb` tool is available; it is called
once before any other work and its failure aborts the invocation
immediately with a "tool unavailable" signal. -/
def sdb_exist (env : Env) : Except PyError Unit :=
  if env.sdbPresent then .ok () else .error .prerequisiteMissing

/-- Modelled from the spec: `load_project_list` (imported from
`litmus.cmds`, whose source is not in the repository fragment) returns the
ordered sequence of project records loaded from the given project-list
source; this layer does not define the on-disk format and only consumes
the resulting sequence. -/
def load_project_list (env : Env) (_projects : String) : List PyDict :=
  env.projList

/-- Lines 24-25: `next((prj for prj in prj_list if prj['name'] == args.project),
None)`. The generator examines records left to right, reading `prj['name']`
unconditionally; a missing `'name'` key raises `KeyError` out of `next`.
Returns the first matching record, or `none` when the list is exhausted. -/
def findProject : List PyDict → String → Except PyError (Option PyDict)
  | [], _ => .ok none
  | d :: rest, n =>
    match dictGet d "name" with
    | .error e => .error e
    | .ok nm => if nm = n then .ok (some d) else findProject rest n

/-- Lines 24-27: the resolution step. Runs `findProject` (a raised
`KeyError` propagates) and then the `if not project: raise Exception(...)`
falsy check; returns the matched record otherwise. A matched record always
contains the `'name'` key, so it is a non-empty dict and never falsy; the
falsy outcome is exactly the `None` default of `next`. -/
def resolve (prj_list : List PyDict) (name : String) : Except PyError PyDict :=
  match findProject prj_list name with
  | .error e => .error e
  | .ok project =>
    if pyTruthy project then
      match project with
      | some d => .ok d
      | none => .error (projectNotFound name)
    else
      .error (projectNotFound name)

/-- An observable step performed by `main(args)`, in execution order. -/
inductive Event where
  /-- `sdb_exist()` was called. -/
  | sdbCheck
  /-- `load_project_list(args.projects)` was called. -/
  | loadProjectList
  /-- the resolution expression of lines 24-27 was evaluated. -/
  | resolveProject
  /-- `sys.path.append(p)` was executed. -/
  | sysPathAppend (p : String)
  /-- `import userscript` succeeded. -/
  | importUserscript
  /-- `userscript.main(project_name=.., project_path=.., param=..,
  workingdir=.., topology=..)` was invoked with these arguments. -/
  | callMain (project_name project_path param workingdir topology : String)
  deriving DecidableEq, Repr

/-- The outcome of one invocation of `main(args)`: the Python result
(normal return or uncaught exception), the final `sys.path`, and the trace
of observable steps in the order they executed. -/
structure RunResult where
  result : Except PyError Unit
  sysPath : List String
  events : List Event
  deriving Repr

/-- `litmus.cmds.cmd_run.main(args)`, lines 22-35, run against environment
`env` with initial module search path `sysPath`. -/
def cmd_run_main (args : Args) (env : Env) (sysPath : List String) : RunResult :=
  match sdb_exist env with
  | .error e => { result := .error e, sysPath := sysPath, events := [.sdbCheck] }
  | .ok () =>
    let prj_list := load_project_list env args.projects
    match resolve prj_list args.project with
    | .error e =>
      { result := .error e, sysPath := sysPath,
        events := [.sdbCheck, .loadProjectList, .resolveProject] }
    | .ok project =>
      match dictGet project "path" with
      | .error e =>
        { result := .error e, sysPath := sysPath,
          events := [.sdbCheck, .loadProjectList, .resolveProject] }
      | .ok ppath =>
        let sysPath1 := sysPath ++ [ppath]
        if env.userscriptImportable then
          if env.userscriptHasMain then
            if env.userscriptMainCallable then
              { result := env.userscriptMain args.project ppath args.param
                  args.workingdir args.topology,
                sysPath := sysPath1,
                events := [.sdbCheck, .loadProjectList, .resolveProject,
                  .sysPathAppend ppath, .importUserscript,
                  .callMain args.project ppath args.param args.workingdir
                    args.topology] }
            else
              { result := .error .typeErrorNotCallable, sysPath := sysPath1,
                events := [.sdbCheck, .loadProjectList, .resolveProject,
                  .sysPathAppend ppath, .importUserscript] }
          else
            { result := .error (.attributeError "main"), sysPath := sysPath1,
              events := [.sdbCheck, .loadProjectList, .resolveProject,
                .sysPathAppend ppath, .importUserscript] }
        else
          { result := .error (.moduleNotFoundError "userscript"),
            sysPath := sysPath1,
            events := [.sdbCheck, .loadProjectList, .resolveProject,
              .sysPathAppend ppath] }

/-- Selects the `callMain` events of a trace. -/
def isCallMain : Event → Bool
  | .callMain _ _ _ _ _ => true
  | _ => false

/-- Selects the `sysPathAppend` events of a trace. -/
def isSysPathAppend : Event → Bool
  | .sysPathAppend _ => true
  | _ => false

/-- The spec's `PluginContractError` class: the exception raised when the
loaded `userscript` module lacks a callable `main` entry point
(`AttributeError` when the attribute is absent, `TypeError` when it is not
callable). -/
def PyError.isPluginContract : PyError → Bool
  | .attributeError _ => true
  | .typeErrorNotCallable => true
  | _ => false

/-- Lines 24-25 with the traversed list threaded as state, to express that
the generator expression only reads the records it examines: the second
component is the list as it stands after resolution. -/
def findProjectSt : List PyDict → String → Except PyError (Option PyDict) × List PyDict
  | [], _ => (.ok none, [])
  | d :: rest, n =>
    match dictGet d "name" with
    | .error e => (.error e, d :: rest)
    | .ok nm =>
      if nm = n then (.ok (some d), d :: rest)
      else
        let p := findProjectSt rest n
        (p.1, d :: p.2)

/-- A well-formed project record, as in the spec's Scenario A. -/
def recAlpha : PyDict := [("name", "alpha"), ("path", "/p/a")]

/-- CLI arguments requesting project `alpha`. -/
def argsAlpha : Args :=
  { projects := "projects.yaml", project := "alpha", param := "-x 1",
    workingdir := "/tmp/wd", topology := "topo" }

/-- CLI arguments requesting the unregistered project `beta`. -/
def argsBeta : Args :=
  { projects := "projects.yaml", project := "beta", param := "-x 1",
    workingdir := "/tmp/wd", topology := "topo" }

/-- Environment with `sdb` present, one registered project, and a
well-behaved `userscript` module. -/
def envOk : Env :=
  { sdbPresent := true, projList := [recAlpha], userscriptImportable := true,
    userscriptHasMain := true, userscriptMainCallable := true,
    userscriptMain := fun _ _ _ _ _ => .ok () }

/-- `envOk` but with no discoverable `userscript` module (Scenario C). -/
def envNoModule : Env := { envOk with userscriptImportable := false }

/-- `envOk` but the loaded module lacks a `main` attribute (Scenario D). -/
def envNoMain : Env := { envOk with userscriptHasMain := false }

/-- `envOk` but the script's `main` raises an exception (Scenario E). -/
def envRaise : Env :=
  { envOk with userscriptMain := fun _ _ _ _ _ => .error (.exception "boom") }

end CmdRun

namespace CmdRun

-- sanity checks on concrete inputs (Scenarios A and B of the spec)
example :
    resolve [[("name", "alpha"), ("path", "/p/a")]] "alpha" =
      .ok [("name", "alpha"), ("path", "/p/a")] := rfl

example :
    resolve [[("name", "alpha"), ("path", "/p/a")]] "beta" =
      .error (.exception "Project beta does not exists") := rfl

example :
    findProject [[("path", "/p/a")]] "alpha" = .error (.keyError "name") := by
  rfl

/-- On a list whose examined records all carry a `'name'` key, the
generator-`next` expression computes exactly the first match of the linear
search. -/
lemma findProject_eq_find? (n : String) :
    ∀ L : List PyDict, (∀ d ∈ L, ∃ v, List.lookup "name" d = some v) →
      findProject L n = .ok (L.find? fun d => List.lookup "name" d == some n)
  | [], _ => rfl
  | d :: rest, h => by
    obtain ⟨v, hv⟩ := h d (List.mem_cons_self d rest)
    have ih := findProject_eq_find? n rest fun x hx => h x (List.mem_cons_of_mem d hx)
    rcases eq_or_ne v n with hvn | hvn
    · subst hvn
      have hp : (List.lookup "name" d == some v) = true := by simp [hv]
      simp [findProject, dictGet, hv, List.find?_cons_of_pos _ hp]
    · have hp : ¬(List.lookup "name" d == some n) = true := by simp [hv, hvn]
      simp [findProject, dictGet, hv, hvn, List.find?_cons_of_neg _ hp, ih]

/-- On a well-formed list, `resolve` returns the first matching record and
otherwise raises `Exception('Project {} does not exists'.format(name))`. -/
lemma resolve_eq_find? (L : List PyDict) (n : String)
    (hwf : ∀ d ∈ L, ∃ v, List.lookup "name" d = some v) :
    resolve L n =
      match L.find? (fun d => List.lookup "name" d == some n) with
      | some r => .ok r
      | none => .error (projectNotFound n) := by
  unfold resolve
  rw [findProject_eq_find? n L hwf]
  cases hf : L.find? (fun d => List.lookup "name" d == some n) with
  | none => simp [pyTruthy]
  | some r =>
    have hp := List.find?_some hf
    have hr : List.lookup "name" r = some n := by simpa using hp
    have hne : r.isEmpty = false := by
      cases r with
      | nil => simp [List.lookup] at hr
      | cons a l => rfl
    simp [pyTruthy, hne]

/-- When every record examined before `d` carries a non-matching name and
`d` itself lacks the `'name'` key, the search raises `KeyError` at `d`. -/
lemma findProject_keyError (n : String) :
    ∀ (L1 : List PyDict) (d : PyDict) (L2 : List PyDict),
      (∀ d' ∈ L1, ∃ v, List.lookup "name" d' = some v ∧ v ≠ n) →
      List.lookup "name" d = none →
      findProject (L1 ++ d :: L2) n = .error (.keyError "name")
  | [], d, L2, _, hd => by simp [findProject, dictGet, hd]
  | d' :: L1, d, L2, h1, hd => by
    obtain ⟨v, hv, hvn⟩ := h1 d' (List.mem_cons_self d' L1)
    have ih := findProject_keyError n L1 d L2
      (fun x hx => h1 x (List.mem_cons_of_mem d' hx)) hd
    simp [findProject, dictGet, hv, hvn, ih]

/-- C1. For every project list whose records all carry a `'name'` key and
every name `n`: if some record has name `n`, `resolve` returns the first
such record; if none does, it fails with the
`Exception('Project {} does not exists')` carrying the requested name
(the spec's `ProjectNotFound`). -/
theorem resolve_first_match_or_not_found (L : List PyDict) (n : String)
    (hwf : ∀ d ∈ L, ∃ v, List.lookup "name" d = some v) :
    ((∃ d ∈ L, List.lookup "name" d = some n) →
      ∃ r, L.find? (fun d => List.lookup "name" d == some n) = some r ∧
        resolve L n = .ok r) ∧
    ((∀ d ∈ L, List.lookup "name" d ≠ some n) →
      resolve L n = .error (projectNotFound n)) := by
  have hres := resolve_eq_find? L n hwf
  constructor
  · rintro ⟨d, hd, hname⟩
    have hsome : (L.find? fun x => List.lookup "name" x == some n).isSome := by
      rw [List.find?_isSome]
      exact ⟨d, hd, by simp [hname]⟩
    obtain ⟨r, hr⟩ := Option.isSome_iff_exists.mp hsome
    exact ⟨r, hr, by rw [hres, hr]⟩
  · intro hnone
    have hf : L.find? (fun x => List.lookup "name" x == some n) = none := by
      rw [List.find?_eq_none]
      intro x hx
      simp [hnone x hx]
    rw [hres, hf]

/-- Witness for C1 on the singleton list `[{'name': 'alpha', 'path': '/p/a'}]`:
`resolve` finds `'alpha'` and rejects `'beta'` with the formatted exception. -/
theorem resolve_first_match_or_not_found_witness :
    resolve [[("name", "alpha"), ("path", "/p/a")]] "alpha" =
        .ok [("name", "alpha"), ("path", "/p/a")] ∧
      resolve [[("name", "alpha"), ("path", "/p/a")]] "beta" =
        .error (.exception "Project beta does not exists") := by
  have hwf : ∀ d ∈ [[("name", "alpha"), ("path", "/p/a")]],
      ∃ v, List.lookup "name" d = some v := by
    intro d hd
    simp only [List.mem_singleton] at hd
    exact ⟨"alpha", by rw [hd]; rfl⟩
  refine ⟨?_, ?_⟩
  · obtain ⟨r, hr, hres⟩ :=
      (resolve_first_match_or_not_found
        [[("name", "alpha"), ("path", "/p/a")]] "alpha" hwf).1
        ⟨[("name", "alpha"), ("path", "/p/a")], by simp, rfl⟩
    have : [("name", "alpha"), ("path", "/p/a")] = r := by
      simpa using hr
    rw [← this] at hres
    exact hres
  · exact (resolve_first_match_or_not_found
      [[("name", "alpha"), ("path", "/p/a")]] "beta" hwf).2
      (by intro d hd; simp only [List.mem_singleton] at hd; rw [hd]; decide)

/-- C8. Resolution never mutates its input list: the state-passing variant
of the search returns the list unchanged — whether it finds a match,
exhausts the list, or raises `KeyError` — and computes the same answer as
`findProject`. -/
theorem resolve_preserves_input_list (L : List PyDict) (n : String) :
    (findProjectSt L n).2 = L ∧ (findProjectSt L n).1 = findProject L n := by
  induction L with
  | nil => exact ⟨rfl, rfl⟩
  | cons d rest ih =>
    cases hl : List.lookup "name" d with
    | none => simp [findProjectSt, findProject, dictGet, hl]
    | some v =>
      by_cases hv : v = n
      · simp [findProjectSt, findProject, dictGet, hl, hv]
      · simp [findProjectSt, findProject, dictGet, hl, hv, ih.1, ih.2]

/-- C9. If some record examined during the linear search (here: after a
prefix of named, non-matching records) lacks the `'name'` key, resolution
raises `KeyError('name')` — not the `ProjectNotFound` exception — because
the generator reads `prj['name']` unconditionally. -/
theorem missing_name_key_raises_key_error (L1 L2 : List PyDict) (d : PyDict)
    (n : String)
    (h1 : ∀ d' ∈ L1, ∃ v, List.lookup "name" d' = some v ∧ v ≠ n)
    (h2 : List.lookup "name" d = none) :
    resolve (L1 ++ d :: L2) n = .error (.keyError "name") := by
  unfold resolve
  rw [findProject_keyError n L1 d L2 h1 h2]

/-- Witness for C9: a named, non-matching record followed by a record with
only a `'path'` key makes resolution fail with `KeyError('name')`. -/
theorem missing_name_key_raises_key_error_witness :
    resolve [[("name", "beta"), ("path", "/p/b")], [("path", "/p/a")]]
        "alpha" = .error (.keyError "name") :=
  missing_name_key_raises_key_error [[("name", "beta"), ("path", "/p/b")]]
    [] [("path", "/p/a")] "alpha"
    (by
      intro d' hd'
      simp only [List.mem_singleton] at hd'
      exact ⟨"beta", by rw [hd']; exact ⟨rfl, by decide⟩⟩)
    rfl

/-- C10. The spec's non-empty-name precondition is not enforced: for the
empty-string target, resolution performs the same first-match search,
returning a record whose name is the empty string when one exists and
failing with `ProjectNotFound` otherwise. -/
theorem empty_name_not_rejected (L : List PyDict)
    (hwf : ∀ d ∈ L, ∃ v, List.lookup "name" d = some v) :
    ((∃ d ∈ L, List.lookup "name" d = some "") →
      ∃ r, L.find? (fun d => List.lookup "name" d == some "") = some r ∧
        List.lookup "name" r = some "" ∧ resolve L "" = .ok r) ∧
    ((∀ d ∈ L, List.lookup "name" d ≠ some "") →
      resolve L "" = .error (projectNotFound "")) := by
  have hres := resolve_eq_find? L "" hwf
  constructor
  · rintro ⟨d, hd, hname⟩
    have hsome : (L.find? fun x => List.lookup "name" x == some "").isSome := by
      rw [List.find?_isSome]
      exact ⟨d, hd, by simp [hname]⟩
    obtain ⟨r, hr⟩ := Option.isSome_iff_exists.mp hsome
    have hrname : List.lookup "name" r = some "" := by
      simpa using List.find?_some hr
    exact ⟨r, hr, hrname, by rw [hres, hr]⟩
  · intro hnone
    have hf : L.find? (fun x => List.lookup "name" x == some "") = none := by
      rw [List.find?_eq_none]
      intro x hx
      simp [hnone x hx]
    rw [hres, hf]

/-- Witness for C10: a record named by the empty string is found, and on a
list without one the empty-string request fails with the formatted
`ProjectNotFound` exception. -/
theorem empty_name_not_rejected_witness :
    (∃ r, List.find?
          (fun d => List.lookup "name" d == some "")
          [[("name", ""), ("path", "/p/e")]] = some r ∧
        List.lookup "name" r = some "" ∧
        resolve [[("name", ""), ("path", "/p/e")]] "" = .ok r) ∧
      resolve [[("name", "alpha"), ("path", "/p/a")]] "" =
        .error (.exception "Project  does not exists") := by
  constructor
  · exact (empty_name_not_rejected [[("name", ""), ("path", "/p/e")]]
      (by
        intro d hd
        simp only [List.mem_singleton] at hd
        exact ⟨"", by rw [hd]; rfl⟩)).1
      ⟨[("name", ""), ("path", "/p/e")], by simp, rfl⟩
  · exact (empty_name_not_rejected [[("name", "alpha"), ("path", "/p/a")]]
      (by
        intro d hd
        simp only [List.mem_singleton] at hd
        exact ⟨"alpha", by rw [hd]; rfl⟩)).2
      (by intro d hd; simp only [List.mem_singleton] at hd; rw [hd]; decide)

/-- Exhaustive enumeration of the execution branches of `cmd_run_main`:
prerequisite failure; resolution failure; `KeyError('path')` on the
resolved record; `import userscript` failure; missing `main` attribute;
non-callable `main`; and the full invocation. -/
lemma cmd_run_main_shape (args : Args) (env : Env) (sp : List String) :
    (sdb_exist env = .error .prerequisiteMissing ∧
      cmd_run_main args env sp =
        ⟨.error .prerequisiteMissing, sp, [.sdbCheck]⟩) ∨
    (sdb_exist env = .ok () ∧
      ((∃ e, resolve env.projList args.project = .error e ∧
        cmd_run_main args env sp =
          ⟨.error e, sp, [.sdbCheck, .loadProjectList, .resolveProject]⟩) ∨
      (∃ prj, resolve env.projList args.project = .ok prj ∧
        ((dictGet prj "path" = .error (.keyError "path") ∧
          cmd_run_main args env sp =
            ⟨.error (.keyError "path"), sp,
              [.sdbCheck, .loadProjectList, .resolveProject]⟩) ∨
        (∃ ppath, dictGet prj "path" = .ok ppath ∧
          ((env.userscriptImportable = false ∧
            cmd_run_main args env sp =
              ⟨.error (.moduleNotFoundError "userscript"), sp ++ [ppath],
                [.sdbCheck, .loadProjectList, .resolveProject,
                  .sysPathAppend ppath]⟩) ∨
          (env.userscriptImportable = true ∧
            env.userscriptHasMain = false ∧
            cmd_run_main args env sp =
              ⟨.error (.attributeError "main"), sp ++ [ppath],
                [.sdbCheck, .loadProjectList, .resolveProject,
                  .sysPathAppend ppath, .importUserscript]⟩) ∨
          (env.userscriptImportable = true ∧
            env.userscriptHasMain = true ∧
            env.userscriptMainCallable = false ∧
            cmd_run_main args env sp =
              ⟨.error .typeErrorNotCallable, sp ++ [ppath],
                [.sdbCheck, .loadProjectList, .resolveProject,
                  .sysPathAppend ppath, .importUserscript]⟩) ∨
          (env.userscriptImportable = true ∧
            env.userscriptHasMain = true ∧
            env.userscriptMainCallable = true ∧
            cmd_run_main args env sp =
              ⟨env.userscriptMain args.project ppath args.param
                  args.workingdir args.topology, sp ++ [ppath],
                [.sdbCheck, .loadProjectList, .resolveProject,
                  .sysPathAppend ppath, .importUserscript,
                  .callMain args.project ppath args.param args.workingdir
                    args.topology]⟩))))))) := by
  cases hs : sdb_exist env with
  | error e =>
    have he : e = PyError.prerequisiteMissing := by
      unfold sdb_exist at hs
      by_cases h : env.sdbPresent <;> simp [h] at hs <;> simp [hs]
    subst he
    exact Or.inl ⟨rfl, by simp [cmd_run_main, hs]⟩
  | ok u =>
    cases u
    refine Or.inr ⟨rfl, ?_⟩
    cases hr : resolve env.projList args.project with
    | error e =>
      exact Or.inl ⟨e, rfl,
        by simp [cmd_run_main, hs, load_project_list, hr]⟩
    | ok prj =>
      refine Or.inr ⟨prj, rfl, ?_⟩
      cases hp : dictGet prj "path" with
      | error e =>
        have he : e = PyError.keyError "path" := by
          unfold dictGet at hp
          cases h : List.lookup "path" prj <;> simp [h] at hp <;> simp [hp]
        subst he
        exact Or.inl ⟨rfl,
          by simp [cmd_run_main, hs, load_project_list, hr, hp]⟩
      | ok ppath =>
        refine Or.inr ⟨ppath, rfl, ?_⟩
        cases hi : env.userscriptImportable with
        | false =>
          exact Or.inl ⟨rfl,
            by simp [cmd_run_main, hs, load_project_list, hr, hp, hi]⟩
        | true =>
          cases hm : env.userscriptHasMain with
          | false =>
            exact Or.inr <| Or.inl ⟨rfl, rfl,
              by simp [cmd_run_main, hs, load_project_list, hr, hp, hi, hm]⟩
          | true =>
            cases hc : env.userscriptMainCallable with
            | false =>
              exact Or.inr <| Or.inr <| Or.inl ⟨rfl, rfl, rfl,
                by simp [cmd_run_main, hs, load_project_list, hr, hp, hi, hm,
                  hc]⟩
            | true =>
              exact Or.inr <| Or.inr <| Or.inr ⟨rfl, rfl, rfl,
                by simp [cmd_run_main, hs, load_project_list, hr, hp, hi, hm,
                  hc]⟩

/-- C2. Invocation order: the trace starts with the prerequisite check;
resolution is only reached when the check passed; the search path is only
appended after resolution returned a record (with the record's `'path'`
value); and a resolution failure aborts with that error, leaving the
search path untouched, with no module import and no entry-point call. -/
theorem invocation_order_invariant (args : Args) (env : Env)
    (sp : List String) :
    (cmd_run_main args env sp).events.head? = some .sdbCheck ∧
    (Event.resolveProject ∈ (cmd_run_main args env sp).events →
      sdb_exist env = .ok ()) ∧
    (∀ p, Event.sysPathAppend p ∈ (cmd_run_main args env sp).events →
      ∃ prj, resolve env.projList args.project = .ok prj ∧
        dictGet prj "path" = .ok p) ∧
    (∀ e, resolve env.projList args.project = .error e →
      sdb_exist env = .ok () →
      (cmd_run_main args env sp).result = .error e ∧
      (cmd_run_main args env sp).sysPath = sp ∧
      Event.importUserscript ∉ (cmd_run_main args env sp).events ∧
      ∀ pn pp pa wd tp,
        Event.callMain pn pp pa wd tp ∉ (cmd_run_main args env sp).events) := by
  rcases cmd_run_main_shape args env sp with
    ⟨hs, hrun⟩ | ⟨hs, ⟨e, hr, hrun⟩ | ⟨prj, hr, ⟨hp, hrun⟩ |
      ⟨ppath, hp, ⟨hi, hrun⟩ | ⟨hi, hm, hrun⟩ | ⟨hi, hm, hc, hrun⟩ |
        ⟨hi, hm, hc, hrun⟩⟩⟩⟩ <;>
    rw [hrun] <;>
    refine ⟨rfl, ?_, ?_, ?_⟩ <;>
    simp_all

/-- Witness for C2, via its resolution-failure clause at a concrete run:
requesting unregistered `beta` aborts with the formatted exception, leaves
`sys.path` empty, and neither imports nor calls the userscript. -/
theorem invocation_order_invariant_witness :
    (cmd_run_main argsBeta envOk []).result =
        .error (.exception "Project beta does not exists") ∧
      (cmd_run_main argsBeta envOk []).sysPath = [] ∧
      Event.importUserscript ∉ (cmd_run_main argsBeta envOk []).events ∧
      ∀ pn pp pa wd tp,
        Event.callMain pn pp pa wd tp ∉ (cmd_run_main argsBeta envOk []).events :=
  (invocation_order_invariant argsBeta envOk []).2.2.2
    (.exception "Project beta does not exists") rfl rfl

/-- C3. When prerequisites pass and resolution succeeds but no `userscript`
module is discoverable, the run fails with `ModuleNotFoundError` for
`userscript` (the spec's `PluginLoadError`) and the entry point is never
invoked. -/
theorem userscript_module_missing_aborts (args : Args) (env : Env)
    (sp : List String) (prj : PyDict) (ppath : String)
    (hs : sdb_exist env = .ok ())
    (hr : resolve env.projList args.project = .ok prj)
    (hp : dictGet prj "path" = .ok ppath)
    (hi : env.userscriptImportable = false) :
    (cmd_run_main args env sp).result =
      .error (.moduleNotFoundError "userscript") ∧
    (cmd_run_main args env sp).events.filter isCallMain = [] := by
  have h : cmd_run_main args env sp =
      ⟨.error (.moduleNotFoundError "userscript"), sp ++ [ppath],
        [.sdbCheck, .loadProjectList, .resolveProject,
          .sysPathAppend ppath]⟩ := by
    simp [cmd_run_main, hs, load_project_list, hr, hp, hi]
  rw [h]
  exact ⟨rfl, rfl⟩

/-- Witness for C3 (Scenario C): valid record but no `userscript` module. -/
theorem userscript_module_missing_aborts_witness :
    (cmd_run_main argsAlpha envNoModule []).result =
        .error (.moduleNotFoundError "userscript") ∧
      (cmd_run_main argsAlpha envNoModule []).events.filter isCallMain = [] :=
  userscript_module_missing_aborts argsAlpha envNoModule [] recAlpha "/p/a"
    rfl rfl rfl rfl

/-- C4. When the loaded `userscript` module lacks a callable `main` entry
point (attribute absent, or present but not callable), the run fails with
a `PluginContractError`-class exception (`AttributeError` or `TypeError`)
and the entry point is never invoked. -/
theorem userscript_missing_main_contract_error (args : Args) (env : Env)
    (sp : List String) (prj : PyDict) (ppath : String)
    (hs : sdb_exist env = .ok ())
    (hr : resolve env.projList args.project = .ok prj)
    (hp : dictGet prj "path" = .ok ppath)
    (hi : env.userscriptImportable = true)
    (hm : env.userscriptHasMain = false ∨ env.userscriptMainCallable = false) :
    (∃ e, (cmd_run_main args env sp).result = .error e ∧
      PyError.isPluginContract e = true) ∧
    (cmd_run_main args env sp).events.filter isCallMain = [] := by
  cases hma : env.userscriptHasMain with
  | false =>
    have h : cmd_run_main args env sp =
        ⟨.error (.attributeError "main"), sp ++ [ppath],
          [.sdbCheck, .loadProjectList, .resolveProject,
            .sysPathAppend ppath, .importUserscript]⟩ := by
      simp [cmd_run_main, hs, load_project_list, hr, hp, hi, hma]
    rw [h]
    exact ⟨⟨.attributeError "main", rfl, rfl⟩, rfl⟩
  | true =>
    have hc : env.userscriptMainCallable = false := by
      rcases hm with hm | hc
      · rw [hma] at hm; exact absurd hm (by simp)
      · exact hc
    have h : cmd_run_main args env sp =
        ⟨.error .typeErrorNotCallable, sp ++ [ppath],
          [.sdbCheck, .loadProjectList, .resolveProject,
            .sysPathAppend ppath, .importUserscript]⟩ := by
      simp [cmd_run_main, hs, load_project_list, hr, hp, hi, hma, hc]
    rw [h]
    exact ⟨⟨.typeErrorNotCallable, rfl, rfl⟩, rfl⟩

/-- Witness for C4 (Scenario D): module present but without `main`. -/
theorem userscript_missing_main_contract_error_witness :
    (∃ e, (cmd_run_main argsAlpha envNoMain []).result = .error e ∧
        PyError.isPluginContract e = true) ∧
      (cmd_run_main argsAlpha envNoMain []).events.filter isCallMain = [] :=
  userscript_missing_main_contract_error argsAlpha envNoMain [] recAlpha
    "/p/a" rfl rfl rfl rfl (Or.inl rfl)

/-- C5. Whatever error the script's `main` raises is the run's result,
unmodified: no translation, recovery, or retry happens in this layer. -/
theorem script_error_propagates_unmodified (args : Args) (env : Env)
    (sp : List String) (prj : PyDict) (ppath : String) (e : PyError)
    (hs : sdb_exist env = .ok ())
    (hr : resolve env.projList args.project = .ok prj)
    (hp : dictGet prj "path" = .ok ppath)
    (hi : env.userscriptImportable = true)
    (hm : env.userscriptHasMain = true)
    (hc : env.userscriptMainCallable = true)
    (he : env.userscriptMain args.project ppath args.param args.workingdir
      args.topology = .error e) :
    (cmd_run_main args env sp).result = .error e := by
  simp [cmd_run_main, hs, load_project_list, hr, hp, hi, hm, hc, he]

/-- Witness for C5 (Scenario E): the script raises `Exception('boom')` and
exactly that exception is the run's outcome. -/
theorem script_error_propagates_unmodified_witness :
    (cmd_run_main argsAlpha envRaise []).result = .error (.exception "boom") :=
  script_error_propagates_unmodified argsAlpha envRaise [] recAlpha "/p/a"
    (.exception "boom") rfl rfl rfl rfl rfl rfl rfl

/-- C6. On a successful run, `userscript.main` is called exactly once, with
`project_name` the requested name, `project_path` the resolved record's
path, and `param`, `workingdir`, `topology` the CLI values unmodified:
the trace's `callMain` events are exactly one such event. -/
theorem successful_run_calls_main_once (args : Args) (env : Env)
    (sp : List String)
    (h : (cmd_run_main args env sp).result = .ok ()) :
    ∃ prj ppath, resolve env.projList args.project = .ok prj ∧
      dictGet prj "path" = .ok ppath ∧
      (cmd_run_main args env sp).events.filter isCallMain =
        [Event.callMain args.project ppath args.param args.workingdir
          args.topology] := by
  rcases cmd_run_main_shape args env sp with
    ⟨hs, hrun⟩ | ⟨hs, ⟨e, hr, hrun⟩ | ⟨prj, hr, ⟨hp, hrun⟩ |
      ⟨ppath, hp, ⟨hi, hrun⟩ | ⟨hi, hm, hrun⟩ | ⟨hi, hm, hc, hrun⟩ |
        ⟨hi, hm, hc, hrun⟩⟩⟩⟩
  · rw [hrun] at h; exact absurd h (by simp)
  · rw [hrun] at h; exact absurd h (by simp)
  · rw [hrun] at h; exact absurd h (by simp)
  · rw [hrun] at h; exact absurd h (by simp)
  · rw [hrun] at h; exact absurd h (by simp)
  · rw [hrun] at h; exact absurd h (by simp)
  · exact ⟨prj, ppath, hr, hp, by rw [hrun]; rfl⟩

/-- Witness for C6: the well-behaved environment yields a successful run
whose only `callMain` event carries the requested name, the resolved path
`/p/a`, and the CLI parameters. -/
theorem successful_run_calls_main_once_witness :
    ∃ prj ppath, resolve envOk.projList argsAlpha.project = .ok prj ∧
      dictGet prj "path" = .ok ppath ∧
      (cmd_run_main argsAlpha envOk []).events.filter isCallMain =
        [Event.callMain argsAlpha.project ppath argsAlpha.param
          argsAlpha.workingdir argsAlpha.topology] :=
  successful_run_calls_main_once argsAlpha envOk [] rfl

/-- C7. The only mutation of the module search path is a single append of
the resolved record's path, never rolled back: either the path is
untouched (and no append event occurred), or it is exactly the input plus
the resolved record's path appended once (and exactly one append event
occurred). -/
theorem syspath_single_append_only (args : Args) (env : Env)
    (sp : List String) :
    ((cmd_run_main args env sp).events.filter isSysPathAppend = [] ∧
      (cmd_run_main args env sp).sysPath = sp) ∨
    (∃ prj ppath, resolve env.projList args.project = .ok prj ∧
      dictGet prj "path" = .ok ppath ∧
      (cmd_run_main args env sp).events.filter isSysPathAppend =
        [Event.sysPathAppend ppath] ∧
      (cmd_run_main args env sp).sysPath = sp ++ [ppath]) := by
  rcases cmd_run_main_shape args env sp with
    ⟨hs, hrun⟩ | ⟨hs, ⟨e, hr, hrun⟩ | ⟨prj, hr, ⟨hp, hrun⟩ |
      ⟨ppath, hp, ⟨hi, hrun⟩ | ⟨hi, hm, hrun⟩ | ⟨hi, hm, hc, hrun⟩ |
        ⟨hi, hm, hc, hrun⟩⟩⟩⟩
  · exact Or.inl ⟨by rw [hrun]; rfl, by rw [hrun]⟩
  · exact Or.inl ⟨by rw [hrun]; rfl, by rw [hrun]⟩
  · exact Or.inl ⟨by rw [hrun]; rfl, by rw [hrun]⟩
  · exact Or.inr ⟨prj, ppath, hr, hp, by rw [hrun]; rfl, by rw [hrun]⟩
  · exact Or.inr ⟨prj, ppath, hr, hp, by rw [hrun]; rfl, by rw [hrun]⟩
  · exact Or.inr ⟨prj, ppath, hr, hp, by rw [hrun]; rfl, by rw [hrun]⟩
  · exact Or.inr ⟨prj, ppath, hr, hp, by rw [hrun]; rfl, by rw [hrun]⟩

end CmdRun
